import Mathlib

/-!
Shallow embedding of the trading-signal evaluator in `src/agent.py`
(`evaluate_signal`) together with proofs of the specification claims.

Python floats are modelled as exact rationals; `round(x, n)` is modelled as
decimal round-half-to-even (the documented behaviour of Python `round`); the
`ZeroDivisionError` that float division by zero raises is modelled by the
`Except.error` branch of the result type.
-/

/-- Round half to even, the rounding mode of Python `round`. -/
def rhe (q : ℚ) : ℤ :=
  if q - ⌊q⌋ < 1/2 then ⌊q⌋
  else if q - ⌊q⌋ > 1/2 then ⌊q⌋ + 1
  else if ⌊q⌋ % 2 = 0 then ⌊q⌋ else ⌊q⌋ + 1

/-- Python `round(q, n)`: round to `n` decimal places, half to even. -/
def roundTo (n : ℕ) (q : ℚ) : ℚ := (rhe (q * 10 ^ n) : ℚ) / 10 ^ n

/-- Two-digit zero padding, for fixed-point rendering of fractional parts. -/
def natPad2 (n : ℕ) : String := if n < 10 then "0" ++ toString n else toString n

/-- Python `"{:.2f}".format(q)` on the idealized decimal value. -/
def formatFixed2 (q : ℚ) : String :=
  (if rhe (q * 100) < 0 then "-" else "")
    ++ toString ((rhe (q * 100)).natAbs / 100) ++ "."
    ++ natPad2 ((rhe (q * 100)).natAbs % 100)

/-- Python `"{:.1f}".format(q)` (also `str` of a float already rounded to one
decimal place) on the idealized decimal value. -/
def formatFixed1 (q : ℚ) : String :=
  (if rhe (q * 10) < 0 then "-" else "")
    ++ toString ((rhe (q * 10)).natAbs / 10) ++ "."
    ++ toString ((rhe (q * 10)).natAbs % 10)

/-- Python `str.lower()` for ASCII strings, written as a structural map so
that it evaluates by reduction. -/
def strLower (s : String) : String := ⟨s.data.map Char.toLower⟩

/-- Python `str.upper()` for ASCII strings. -/
def strUpper (s : String) : String := ⟨s.data.map Char.toUpper⟩

/-- A value looked up in the input dict: the key may be absent, bound to
`None`, or bound to a typed value. -/
inductive PyVal (α : Type) where
  | absent : PyVal α
  | null : PyVal α
  | val : α → PyVal α
deriving DecidableEq, Repr

/-- `data.get(key)`: `None` for an absent key or a `None` value. -/
def pvGet {α : Type} : PyVal α → Option α
  | .val a => some a
  | _ => none

/-- Extraction with a default; only used after validation has ruled the
`absent` and `null` cases out. -/
def pvD {α : Type} (dflt : α) : PyVal α → α
  | .val a => a
  | _ => dflt

/-- `field not in data`. -/
def isAbsent {α : Type} : PyVal α → Bool
  | .absent => true
  | _ => false

/-- `data[field] is None`. -/
def isNull {α : Type} : PyVal α → Bool
  | .null => true
  | _ => false

/-- Python truthiness of an optional string (`None` and `""` are falsy). -/
def truthyStr : Option String → Bool
  | none => false
  | some s => s ≠ ""

/-- Python truthiness of an optional bool (`None` is falsy). -/
def truthyBool : Option Bool → Bool
  | none => false
  | some b => b

/-- The input mapping consumed by `evaluate_signal`.  The nine fields checked
by the validator are doubly optional (absent / null / value); for the
remaining fields Python collapses absent, `None` and falsy values, so a
single `Option` layer is faithful. -/
structure MarketData where
  instrument : PyVal String
  timeframe : PyVal String
  close : PyVal ℚ
  high : PyVal ℚ
  low : PyVal ℚ
  rsi_4h : PyVal ℚ
  rsi_daily : PyVal ℚ
  atr : PyVal ℚ
  ema50_daily : PyVal ℚ
  timestamp : Option String
  candle_type : Option String
  pattern : Option String
  divergence : Option Bool
  strict_mode : Option Bool
  recent_swing_low : Option ℚ
  recent_swing_high : Option ℚ
deriving DecidableEq, Repr

/-- The result record returned by `evaluate_signal`. -/
structure SignalResult where
  status : String
  reason : String
  entry : Option ℚ
  stop_loss : Option ℚ
  take_profit : Option ℚ
  rrr : Option ℚ
  confidence : ℚ
  message : String
  instrument : Option String
  timeframe : Option String
  timestamp : Option String
deriving DecidableEq, Repr

/-- The required fields absent from the input, in declaration order
(lines 47-63 of `agent.py`; note that `timestamp` is not in the list). -/
def requiredMissing (d : MarketData) : List String :=
  (if isAbsent d.instrument then ["instrument"] else [])
    ++ (if isAbsent d.timeframe then ["timeframe"] else [])
    ++ (if isAbsent d.close then ["close"] else [])
    ++ (if isAbsent d.high then ["high"] else [])
    ++ (if isAbsent d.low then ["low"] else [])
    ++ (if isAbsent d.rsi_4h then ["rsi_4h"] else [])
    ++ (if isAbsent d.rsi_daily then ["rsi_daily"] else [])
    ++ (if isAbsent d.atr then ["atr"] else [])
    ++ (if isAbsent d.ema50_daily then ["ema50_daily"] else [])

/-- The required fields bound to `None`, in declaration order
(lines 82-85 of `agent.py`). -/
def requiredNone (d : MarketData) : List String :=
  (if isNull d.instrument then ["instrument"] else [])
    ++ (if isNull d.timeframe then ["timeframe"] else [])
    ++ (if isNull d.close then ["close"] else [])
    ++ (if isNull d.high then ["high"] else [])
    ++ (if isNull d.low then ["low"] else [])
    ++ (if isNull d.rsi_4h then ["rsi_4h"] else [])
    ++ (if isNull d.rsi_daily then ["rsi_daily"] else [])
    ++ (if isNull d.atr then ["atr"] else [])
    ++ (if isNull d.ema50_daily then ["ema50_daily"] else [])

/-- The values of a snapshot that has passed validation (all required fields
present, non-null, and of the schema type).  `high` and `low` are validated
but never read afterwards, so they do not appear here. -/
structure ValidData where
  instrument : String
  timeframe : String
  timestamp : Option String
  close : ℚ
  rsi_4h : ℚ
  rsi_daily : ℚ
  atr : ℚ
  ema50_daily : ℚ
  candle_type : Option String
  pattern : Option String
  divergence : Option Bool
  strict_mode : Option Bool
  recent_swing_low : Option ℚ
  recent_swing_high : Option ℚ
deriving DecidableEq, Repr

/-- Extraction of the validated values from the raw mapping. -/
def toValid (d : MarketData) : ValidData where
  instrument := pvD "" d.instrument
  timeframe := pvD "" d.timeframe
  timestamp := d.timestamp
  close := pvD 0 d.close
  rsi_4h := pvD 0 d.rsi_4h
  rsi_daily := pvD 0 d.rsi_daily
  atr := pvD 0 d.atr
  ema50_daily := pvD 0 d.ema50_daily
  candle_type := d.candle_type
  pattern := d.pattern
  divergence := d.divergence
  strict_mode := d.strict_mode
  recent_swing_low := d.recent_swing_low
  recent_swing_high := d.recent_swing_high

/-- Module 2 (lines 136-141): trend from close versus the daily 50 EMA. -/
def trendOf (close ema50_daily : ℚ) : String :=
  if close > ema50_daily then "bullish" else "bearish"

def bullish_candles : List String :=
  ["hammer", "bullish_engulfing", "morning_star", "bullish_pin_bar"]

def bearish_candles : List String :=
  ["shooting_star", "bearish_engulfing", "evening_star", "bearish_pin_bar"]

def bullish_patterns : List String :=
  ["double_bottom", "inverse_head_shoulders", "ascending_triangle",
   "bullish_flag", "cup_and_handle"]

def bearish_patterns : List String :=
  ["double_top", "head_shoulders", "descending_triangle",
   "bearish_flag", "rising_wedge"]

def strong_patterns : List String :=
  ["hammer", "shooting_star", "bullish_engulfing",
   "bearish_engulfing", "morning_star", "evening_star"]

/-- Confluence 1 (lines 167-197): RSI extreme on the 4H timeframe.  Returns
whether the confluence is met and the detail strings it appends. -/
def rsiConfluence (trend : String) (strict : Bool) (rsi_4h : ℚ) : Bool × List String :=
  if trend = "bullish" then
    if strict then
      if rsi_4h ≤ 5 then (true, ["RSI 4H extremely oversold: " ++ formatFixed2 rsi_4h])
      else (false, [])
    else
      if rsi_4h ≤ 20 then (true, ["RSI 4H oversold: " ++ formatFixed2 rsi_4h])
      else (false, [])
  else if trend = "bearish" then
    if strict then
      if rsi_4h ≥ 95 then (true, ["RSI 4H extremely overbought: " ++ formatFixed2 rsi_4h])
      else (false, [])
    else
      if rsi_4h ≥ 80 then (true, ["RSI 4H overbought: " ++ formatFixed2 rsi_4h])
      else (false, [])
  else (false, [])

/-- Confluence 2 (lines 205-221): candle confirmation. -/
def candleConfluence (trend : String) (candle_type : Option String) : Bool × List String :=
  match candle_type with
  | none => (false, [])
  | some ct =>
    if ct = "" then (false, [])
    else if trend = "bullish" ∧ strLower ct ∈ bullish_candles then
      (true, ["Bullish candle pattern: " ++ ct])
    else if trend = "bearish" ∧ strLower ct ∈ bearish_candles then
      (true, ["Bearish candle pattern: " ++ ct])
    else (false, [])

/-- The chart-pattern half of confluence 3 (lines 233-247). -/
def patternSub (trend : String) (pattern : Option String) : Bool × List String :=
  match pattern with
  | none => (false, [])
  | some p =>
    if p = "" then (false, [])
    else if trend = "bullish" ∧ strLower p ∈ bullish_patterns then
      (true, ["Bullish pattern: " ++ p])
    else if trend = "bearish" ∧ strLower p ∈ bearish_patterns then
      (true, ["Bearish pattern: " ++ p])
    else (false, [])

/-- Confluence 3 (lines 230-256): chart pattern or divergence; one slot,
possibly two detail strings. -/
def patternConfluence (trend : String) (pattern : Option String)
    (divergence : Option Bool) : Bool × List String :=
  ((patternSub trend pattern).1 || truthyBool divergence,
   (patternSub trend pattern).2
     ++ (if truthyBool divergence then ["Price/RSI divergence detected"] else []))

/-- Confluence 4 (lines 264-282): daily trend alignment. -/
def trendConfluence (trend : String) (rsi_daily : ℚ) : Bool × List String :=
  if trend = "bullish" then
    if rsi_daily < 70 then
      (true, ["Daily trend aligned (RSI Daily: " ++ formatFixed2 rsi_daily ++ ")"])
    else (false, [])
  else if trend = "bearish" then
    if rsi_daily > 30 then
      (true, ["Daily trend aligned (RSI Daily: " ++ formatFixed2 rsi_daily ++ ")"])
    else (false, [])
  else (false, [])

/-- The four confluences in evaluation order. -/
def confluences (d : ValidData) : List (Bool × List String) :=
  [rsiConfluence (trendOf d.close d.ema50_daily) (truthyBool d.strict_mode) d.rsi_4h,
   candleConfluence (trendOf d.close d.ema50_daily) d.candle_type,
   patternConfluence (trendOf d.close d.ema50_daily) d.pattern d.divergence,
   trendConfluence (trendOf d.close d.ema50_daily) d.rsi_daily]

/-- `confluence_count` after module 3. -/
def confluenceCount (d : ValidData) : ℕ :=
  ((confluences d).filter (·.1)).length

/-- `confluence_details` after module 3, in evaluation order. -/
def confluenceDetails (d : ValidData) : List String :=
  ((confluences d).map (·.2)).flatten

/-- Module 4 (lines 315-318): signal direction from the trend. -/
def directionOf (trend : String) : String :=
  if trend = "bullish" then "long" else "short"

def trendD (d : ValidData) : String := trendOf d.close d.ema50_daily

def directionD (d : ValidData) : String := directionOf (trendD d)

/-- Module 5 (lines 342-366): stop-loss distance, the larger of `1.0 * atr`
and the distance to the applicable swing level when one is supplied. -/
def slDistanceOf (d : ValidData) : ℚ :=
  if directionD d = "long" then
    match d.recent_swing_low with
    | some sw => if d.close - sw > 1 * d.atr then d.close - sw else 1 * d.atr
    | none => 1 * d.atr
  else
    match d.recent_swing_high with
    | some sw => if sw - d.close > 1 * d.atr then sw - d.close else 1 * d.atr
    | none => 1 * d.atr

/-- `entry_price` after rounding (line 406). -/
def entryD (d : ValidData) : ℚ := roundTo 5 d.close

/-- `stop_loss` after rounding (lines 382-389, 407). -/
def stopD (d : ValidData) : ℚ :=
  roundTo 5 (if directionD d = "long" then d.close - slDistanceOf d
             else d.close + slDistanceOf d)

/-- `take_profit` after rounding (lines 382-390, 408); the take-profit
distance is `2.0 * sl_distance` (line 375). -/
def takeD (d : ValidData) : ℚ :=
  roundTo 5 (if directionD d = "long" then d.close + 2 * slDistanceOf d
             else d.close - 2 * slDistanceOf d)

/-- `rrr` after rounding (lines 398, 409). -/
def rrrD (d : ValidData) : ℚ :=
  roundTo 2 (2 * slDistanceOf d / slDistanceOf d)

/-- Confidence component 1 (line 428). -/
def confluencePercentage (count : ℕ) : ℚ := ((count : ℚ) / 4) * 25

/-- Confidence component 2 (lines 438-468): trend-alignment tiers. -/
def trendScoreOf (trend : String) (rsi_daily : ℚ) : ℤ :=
  if trend = "bullish" then
    if rsi_daily < 50 then 20
    else if rsi_daily < 60 then 15
    else if rsi_daily < 70 then 10
    else 5
  else if trend = "bearish" then
    if rsi_daily > 50 then 20
    else if rsi_daily > 40 then 15
    else if rsi_daily > 30 then 10
    else 5
  else 0

/-- Confidence component 4 (lines 490-504): candle quality. -/
def candleScoreOf (met : Bool) (candle_type : Option String) : ℤ :=
  if met then
    if truthyStr candle_type ∧ strLower (candle_type.getD "") ∈ strong_patterns then 20
    else 12
  else 8

def candleScoreD (d : ValidData) : ℤ :=
  candleScoreOf (candleConfluence (trendD d) d.candle_type).1 d.candle_type

/-- `confidence_score` after rounding (lines 420-524); components 3 and 5 are
the constants 20 and 15. -/
def confidenceD (d : ValidData) : ℚ :=
  roundTo 1 (confluencePercentage (confluenceCount d)
    + (trendScoreOf (trendD d) d.rsi_daily : ℚ) + 20 + (candleScoreD d : ℚ) + 15)

/-- `"; ".join(confluence_details) if confluence_details else "None"`. -/
def detailsOrNone (l : List String) : String :=
  if l = [] then "None" else String.intercalate "; " l

/-- The message of the confluence-gate abstain (line 299). -/
def confGateMsg (d : ValidData) : String :=
  "Only " ++ toString (confluenceCount d)
    ++ "/4 confluences met. Need at least 3. Met: "
    ++ detailsOrNone (confluenceDetails d)

/-- The message of the confidence-gate abstain (lines 535-537). -/
def confLowMsg (d : ValidData) : String :=
  "Confidence score " ++ formatFixed1 (confidenceD d)
    ++ "% is below minimum threshold of 70%. Confluences: "
    ++ formatFixed1 (confluencePercentage (confluenceCount d))
    ++ "%, Trend: " ++ toString (trendScoreOf (trendD d) d.rsi_daily)
    ++ ", Level: 20, Candle: " ++ toString (candleScoreD d)
    ++ ", Market: 15"

/-- The shared shape of the six abstain returns of `evaluate_signal`. -/
def abstain (reason msg : String) (confidence : ℚ)
    (instrument timeframe timestamp : Option String) : SignalResult where
  status := "no_trade"
  reason := reason
  entry := none
  stop_loss := none
  take_profit := none
  rrr := none
  confidence := confidence
  message := msg
  instrument := instrument
  timeframe := timeframe
  timestamp := timestamp

/-- The successful trade signal (lines 600-625). -/
def finalResult (d : ValidData) : SignalResult where
  status := directionD d
  reason := "all_conditions_met"
  entry := some (entryD d)
  stop_loss := some (stopD d)
  take_profit := some (takeD d)
  rrr := some (rrrD d)
  confidence := confidenceD d
  message := "Trend: " ++ strUpper (trendD d) ++ " | Signal: "
    ++ strUpper (directionD d) ++ " | Confluences ("
    ++ toString (confluenceCount d) ++ "/4): "
    ++ String.intercalate "; " (confluenceDetails d)
  instrument := some d.instrument
  timeframe := some d.timeframe
  timestamp := d.timestamp

/-- Modules 3-7 of `evaluate_signal`, after validation.  The float division
`tp_distance / sl_distance` at line 398 raises `ZeroDivisionError` when
`sl_distance` is `0.0`; everything before that division is pure. -/
def evaluateValidated (d : ValidData) : Except String SignalResult :=
  if confluenceCount d < 3 then
    Except.ok (abstain "not_enough_confluences" (confGateMsg d) 0
      (some d.instrument) (some d.timeframe) d.timestamp)
  else if slDistanceOf d = 0 then
    Except.error "ZeroDivisionError"
  else if confidenceD d < 70 then
    Except.ok (abstain "confidence_too_low" (confLowMsg d) (confidenceD d)
      (some d.instrument) (some d.timeframe) d.timestamp)
  else if directionD d = "long" then
    if stopD d ≥ entryD d ∨ takeD d ≤ entryD d then
      Except.ok (abstain "invalid_risk_parameters"
        "Invalid SL/TP positioning for long trade" (confidenceD d)
        (some d.instrument) (some d.timeframe) d.timestamp)
    else Except.ok (finalResult d)
  else
    if stopD d ≤ entryD d ∨ takeD d ≥ entryD d then
      Except.ok (abstain "invalid_risk_parameters"
        "Invalid SL/TP positioning for short trade" (confidenceD d)
        (some d.instrument) (some d.timeframe) d.timestamp)
    else Except.ok (finalResult d)

/-- The top-level evaluator `evaluate_signal` of `agent.py`: module 1
(validation, lines 47-118) followed by the analysis pipeline. -/
def evaluate_signal (data : MarketData) : Except String SignalResult :=
  if requiredMissing data ≠ [] then
    Except.ok (abstain "data_invalid"
      ("Missing required fields: " ++ String.intercalate ", " (requiredMissing data)) 0
      (pvGet data.instrument) (pvGet data.timeframe) data.timestamp)
  else if requiredNone data ≠ [] then
    Except.ok (abstain "data_invalid"
      ("Fields with None values: " ++ String.intercalate ", " (requiredNone data)) 0
      (pvGet data.instrument) (pvGet data.timeframe) data.timestamp)
  else if pvD "" data.timeframe ≠ "4H" then
    Except.ok (abstain "preconditions_not_met"
      ("Invalid timeframe \x27" ++ pvD "" data.timeframe
        ++ "\x27. Strategy requires \x274H\x27 timeframe.") 0
      (pvGet data.instrument) (pvGet data.timeframe) data.timestamp)
  else evaluateValidated (toValid data)

/-- The end-to-end example snapshot of the specification (also the example
request of `main.py.py`). -/
def baseIn : MarketData where
  instrument := .val "EURUSD"
  timeframe := .val "4H"
  close := .val 1.0850
  high := .val 1.0865
  low := .val 1.0835
  rsi_4h := .val 18.5
  rsi_daily := .val 45.2
  atr := .val 0.0025
  ema50_daily := .val 1.0800
  timestamp := some "2024-01-15T10:00:00Z"
  candle_type := some "hammer"
  pattern := some "double_bottom"
  divergence := some true
  strict_mode := some false
  recent_swing_low := some 1.0820
  recent_swing_high := none

/-- A snapshot that passes validation with three confluences, `atr = 0` and no
swing low: the stop-loss distance is `0.0` and line 398 divides by zero. -/
def zeroAtrIn : MarketData :=
  { baseIn with atr := .val 0, recent_swing_low := none, candle_type := none }

/-- A snapshot with `timestamp` removed and every required field valid, whose
confluence count is `0`. -/
def noTimestampIn : MarketData :=
  { baseIn with
    timestamp := none
    rsi_4h := .val 50
    rsi_daily := .val 75
    candle_type := none
    pattern := none
    divergence := some false }

/-- A snapshot that passes validation with a strictly positive
`atr = 0.000001`, three confluences and confidence `81.8`: rounding to five
decimal places collapses the stop loss onto the entry. -/
def tinyAtrIn : MarketData :=
  { baseIn with atr := .val 0.000001, recent_swing_low := none, candle_type := none }

/-- A valid snapshot with no confluence met. -/
def noConfluenceIn : MarketData :=
  { baseIn with
    rsi_4h := .val 50
    rsi_daily := .val 75
    candle_type := none
    pattern := none
    divergence := some false }

/-- A valid snapshot with exactly two confluences met. -/
def twoConfluenceIn : MarketData :=
  { baseIn with candle_type := none, pattern := none, divergence := some false }

/-- A snapshot with the required field `close` removed. -/
def missingCloseIn : MarketData :=
  { baseIn with close := .absent }

theorem rhe_ge_floor (q : ℚ) : ⌊q⌋ ≤ rhe q := by
  unfold rhe
  split
  · omega
  · split
    · omega
    · split <;> omega

theorem rhe_le_floor_add_one (q : ℚ) : rhe q ≤ ⌊q⌋ + 1 := by
  unfold rhe
  split
  · omega
  · split
    · omega
    · split <;> omega

theorem rhe_mono {q r : ℚ} (h : q ≤ r) : rhe q ≤ rhe r := by
  rcases lt_or_le ⌊q⌋ ⌊r⌋ with hf | hf
  · calc rhe q ≤ ⌊q⌋ + 1 := rhe_le_floor_add_one q
      _ ≤ ⌊r⌋ := by omega
      _ ≤ rhe r := rhe_ge_floor r
  · have hf2 : ⌊q⌋ = ⌊r⌋ := le_antisymm (Int.floor_mono h) hf
    unfold rhe
    rw [hf2]
    repeat' split
    all_goals first | omega | linarith

theorem rhe_add_two (q : ℚ) : rhe (q + 2) = rhe q + 2 := by
  have hf : ⌊q + 2⌋ = ⌊q⌋ + 2 := by
    rw [show (2:ℚ) = ((2:ℤ):ℚ) by norm_num, Int.floor_add_int]
  have hfr : q + 2 - (((⌊q⌋ + 2 : ℤ)):ℚ) = q - ⌊q⌋ := by push_cast; ring
  unfold rhe
  rw [hf, hfr]
  repeat' split
  all_goals omega

theorem rhe_abs (q : ℚ) : |(rhe q : ℚ) - q| ≤ 1/2 := by
  have h1 : ((⌊q⌋ : ℤ) : ℚ) ≤ q := Int.floor_le q
  have h2 : q < (⌊q⌋ : ℤ) + 1 := Int.lt_floor_add_one q
  unfold rhe
  repeat' split
  all_goals rw [abs_le]; constructor <;> push_cast <;> linarith

theorem roundTo5_err (x : ℚ) : |roundTo 5 x - x| ≤ 1/200000 := by
  have key : roundTo 5 x - x = ((rhe (x * 10 ^ 5) : ℚ) - x * 10 ^ 5) / 10 ^ 5 := by
    unfold roundTo
    field_simp
    ring
  rw [key, abs_div]
  have h10 : |((10:ℚ)) ^ 5| = 100000 := by norm_num
  rw [h10]
  have h := rhe_abs (x * 10 ^ 5)
  calc |(rhe (x * 10 ^ 5) : ℚ) - x * 10 ^ 5| / 100000 ≤ (1/2) / 100000 := by gcongr
    _ = 1/200000 := by norm_num

theorem roundTo5_sub_lt (x s : ℚ) (hs : 2/100000 ≤ s) : roundTo 5 (x - s) < roundTo 5 x := by
  have h1 : (x - s) * 10 ^ 5 ≤ x * 10 ^ 5 - 2 := by nlinarith
  have h2 : rhe ((x - s) * 10 ^ 5) ≤ rhe (x * 10 ^ 5 - 2) := rhe_mono h1
  have h3 : rhe (x * 10 ^ 5 - 2) = rhe (x * 10 ^ 5) - 2 := by
    have h4 := rhe_add_two (x * 10 ^ 5 - 2)
    have e : x * 10 ^ 5 - 2 + 2 = x * 10 ^ 5 := by ring
    rw [e] at h4
    omega
  have h5 : rhe ((x - s) * 10 ^ 5) < rhe (x * 10 ^ 5) := by omega
  unfold roundTo
  have hpos : (0:ℚ) < 10 ^ 5 := by norm_num
  apply div_lt_div_of_pos_right _ hpos
  exact_mod_cast h5

theorem roundTo5_add_lt (x s : ℚ) (hs : 2/100000 ≤ s) : roundTo 5 x < roundTo 5 (x + s) := by
  have h := roundTo5_sub_lt (x + s) s hs
  have e : x + s - s = x := by ring
  rw [e] at h
  exact h

theorem directionD_cases (d : ValidData) : directionD d = "long" ∨ directionD d = "short" := by
  unfold directionD directionOf
  split
  · left; rfl
  · right; rfl

theorem atr_le_slDistance (d : ValidData) : d.atr ≤ slDistanceOf d := by
  unfold slDistanceOf
  split
  · cases d.recent_swing_low with
    | none => simp
    | some sw =>
      simp only
      split <;> linarith
  · cases d.recent_swing_high with
    | none => simp
    | some sw =>
      simp only
      split <;> linarith

theorem evalV_shape (d : ValidData) (r : SignalResult)
    (h : evaluateValidated d = Except.ok r) :
    (r.status = "no_trade" ∧ r.entry = none ∧ r.stop_loss = none ∧
      r.take_profit = none ∧ r.rrr = none ∧
      r.reason ∈ (["not_enough_confluences", "confidence_too_low",
        "invalid_risk_parameters"] : List String)) ∨
    (r = finalResult d ∧ slDistanceOf d ≠ 0 ∧
      ((directionD d = "long" ∧ stopD d < entryD d ∧ entryD d < takeD d) ∨
       (directionD d = "short" ∧ takeD d < entryD d ∧ entryD d < stopD d))) := by
  unfold evaluateValidated at h
  split at h
  · left
    simp only [Except.ok.injEq] at h
    subst h
    simp [abstain]
  · split at h
    · exact absurd h (by simp)
    · split at h
      · left
        simp only [Except.ok.injEq] at h
        subst h
        simp [abstain]
      · split at h
        · split at h
          · left
            simp only [Except.ok.injEq] at h
            subst h
            simp [abstain]
          · right
            simp only [Except.ok.injEq] at h
            subst h
            rename_i hsl _ hdir hrisk
            push_neg at hrisk
            exact ⟨rfl, hsl, Or.inl ⟨hdir, hrisk.1, hrisk.2⟩⟩
        · split at h
          · left
            simp only [Except.ok.injEq] at h
            subst h
            simp [abstain]
          · right
            simp only [Except.ok.injEq] at h
            subst h
            rename_i hsl _ hdir hrisk
            push_neg at hrisk
            have hd : directionD d = "short" := by
              rcases directionD_cases d with h1 | h1
              · exact absurd h1 hdir
              · exact h1
            exact ⟨rfl, hsl, Or.inr ⟨hd, hrisk.2, hrisk.1⟩⟩

theorem evalS_shape (dM : MarketData) (r : SignalResult)
    (h : evaluate_signal dM = Except.ok r) :
    (r.status = "no_trade" ∧ r.entry = none ∧ r.stop_loss = none ∧
      r.take_profit = none ∧ r.rrr = none ∧
      r.reason ∈ (["data_invalid", "preconditions_not_met", "not_enough_confluences",
        "confidence_too_low", "invalid_risk_parameters"] : List String)) ∨
    (r = finalResult (toValid dM) ∧ slDistanceOf (toValid dM) ≠ 0 ∧
      ((directionD (toValid dM) = "long" ∧
          stopD (toValid dM) < entryD (toValid dM) ∧
          entryD (toValid dM) < takeD (toValid dM)) ∨
       (directionD (toValid dM) = "short" ∧
          takeD (toValid dM) < entryD (toValid dM) ∧
          entryD (toValid dM) < stopD (toValid dM)))) := by
  unfold evaluate_signal at h
  split at h
  · left
    simp only [Except.ok.injEq] at h
    subst h
    simp [abstain]
  · split at h
    · left
      simp only [Except.ok.injEq] at h
      subst h
      simp [abstain]
    · split at h
      · left
        simp only [Except.ok.injEq] at h
        subst h
        simp [abstain]
      · rcases evalV_shape _ _ h with ⟨h1, h2, h3, h4, h5, h6⟩ | hfin
        · left
          refine ⟨h1, h2, h3, h4, h5, ?_⟩
          simp only [List.mem_cons, List.mem_singleton] at h6 ⊢
          tauto
        · right
          exact hfin

theorem evalS_error (dM : MarketData) (e : String)
    (h : evaluate_signal dM = Except.error e) :
    e = "ZeroDivisionError" ∧ slDistanceOf (toValid dM) = 0 := by
  unfold evaluate_signal at h
  split at h
  · exact absurd h (by simp)
  · split at h
    · exact absurd h (by simp)
    · split at h
      · exact absurd h (by simp)
      · unfold evaluateValidated at h
        split at h
        · exact absurd h (by simp)
        · split at h
          · rename_i hsl
            simp only [Except.error.injEq] at h
            exact ⟨h.symm, hsl⟩
          · split at h
            · exact absurd h (by simp)
            · split at h
              · split at h <;> exact absurd h (by simp)
              · split at h <;> exact absurd h (by simp)

theorem rsiConfluence_nil_iff (t : String) (s : Bool) (q : ℚ) :
    (rsiConfluence t s q).2 = [] ↔ (rsiConfluence t s q).1 = false := by
  unfold rsiConfluence
  repeat' split
  all_goals simp

theorem candleConfluence_nil_iff (t : String) (c : Option String) :
    (candleConfluence t c).2 = [] ↔ (candleConfluence t c).1 = false := by
  unfold candleConfluence
  cases c
  · simp
  · repeat' split
    all_goals simp

theorem patternSub_nil_iff (t : String) (p : Option String) :
    (patternSub t p).2 = [] ↔ (patternSub t p).1 = false := by
  unfold patternSub
  cases p
  · simp
  · repeat' split
    all_goals simp

theorem patternConfluence_nil_iff (t : String) (p : Option String) (dv : Option Bool) :
    (patternConfluence t p dv).2 = [] ↔ (patternConfluence t p dv).1 = false := by
  unfold patternConfluence
  have h := patternSub_nil_iff t p
  cases hb : truthyBool dv <;> cases hp : (patternSub t p).1 <;>
    simp_all

theorem trendConfluence_nil_iff (t : String) (q : ℚ) :
    (trendConfluence t q).2 = [] ↔ (trendConfluence t q).1 = false := by
  unfold trendConfluence
  repeat' split
  all_goals simp

theorem flatten_nil_iff_filter (l : List (Bool × List String))
    (h : ∀ x ∈ l, (x.2 = [] ↔ x.1 = false)) :
    ((l.map (·.2)).flatten = [] ↔ (l.filter (·.1)).length = 0) := by
  induction l with
  | nil => simp
  | cons a t ih =>
    have ha := h a (by simp)
    have ht := ih (fun x hx => h x (by simp [hx]))
    cases hab : a.1
    · simp only [List.map_cons, List.flatten_cons, List.filter_cons, hab]
      rw [ha.mpr hab]
      simpa using ht
    · simp only [List.map_cons, List.flatten_cons, List.filter_cons, hab]
      have hne : a.2 ≠ [] := by
        intro hnil
        have := ha.mp hnil
        rw [hab] at this
        cases this
      constructor
      · intro hcontr
        rw [List.append_eq_nil] at hcontr
        exact absurd hcontr.1 hne
      · intro hcontr
        simp at hcontr
  
theorem details_nil_iff_count_zero (d : ValidData) :
    confluenceDetails d = [] ↔ confluenceCount d = 0 := by
  unfold confluenceDetails confluenceCount
  apply flatten_nil_iff_filter
  intro x hx
  unfold confluences at hx
  simp only [List.mem_cons, List.not_mem_nil, or_false] at hx
  rcases hx with hx | hx | hx | hx <;> subst hx
  · exact rsiConfluence_nil_iff _ _ _
  · exact candleConfluence_nil_iff _ _
  · exact patternConfluence_nil_iff _ _ _
  · exact trendConfluence_nil_iff _ _

theorem ite_singleton_subset {c : Prop} [Decidable c] (s : String) (l : List String)
    (h : s ∈ l) : (if c then [s] else []) ⊆ l := by
  split
  · simpa using h
  · simp

theorem base_dir : directionD (toValid baseIn) = "long" := by
  norm_num [directionD, directionOf, trendD, trendOf, toValid, baseIn, pvD]

theorem base_cnt : confluenceCount (toValid baseIn) = 4 := by
  norm_num [confluenceCount, confluences, toValid, baseIn, pvD, rsiConfluence,
    candleConfluence, patternConfluence, patternSub, trendConfluence, trendOf,
    truthyBool, truthyStr]
  decide

theorem base_sl : slDistanceOf (toValid baseIn) = 0.003 := by
  simp only [slDistanceOf, base_dir]
  norm_num [toValid, baseIn, pvD]

theorem base_candle : candleScoreD (toValid baseIn) = 20 := by
  norm_num [candleScoreD, candleScoreOf, candleConfluence, trendD, trendOf,
    toValid, baseIn, pvD, truthyStr]
  decide

theorem base_trsc : trendScoreOf (trendD (toValid baseIn)) (toValid baseIn).rsi_daily = 20 := by
  norm_num [trendScoreOf, trendD, trendOf, toValid, baseIn, pvD]

theorem base_conf : confidenceD (toValid baseIn) = 100 := by
  simp only [confidenceD, base_cnt, base_trsc, base_candle]
  norm_num [confluencePercentage, roundTo, rhe]

theorem base_entry : entryD (toValid baseIn) = 1.085 := by
  norm_num [entryD, toValid, baseIn, pvD, roundTo, rhe]

theorem base_stop : stopD (toValid baseIn) = 1.082 := by
  simp only [stopD, base_dir, base_sl]
  norm_num [toValid, baseIn, pvD, roundTo, rhe]

theorem base_take : takeD (toValid baseIn) = 1.091 := by
  simp only [takeD, base_dir, base_sl]
  norm_num [toValid, baseIn, pvD, roundTo, rhe]

theorem base_rrr : rrrD (toValid baseIn) = 2 := by
  simp only [rrrD, base_sl]
  norm_num [roundTo, rhe]

theorem base_eval : evaluate_signal baseIn = Except.ok (finalResult (toValid baseIn)) := by
  unfold evaluate_signal evaluateValidated
  rw [if_neg (by decide), if_neg (by decide), if_neg (by decide),
    if_neg (by simp [base_cnt]), if_neg (by rw [base_sl]; norm_num),
    if_neg (by rw [base_conf]; norm_num), if_pos base_dir,
    if_neg (by rw [base_stop, base_entry, base_take]; norm_num)]

theorem zeroAtr_cnt : confluenceCount (toValid zeroAtrIn) = 3 := by
  norm_num [confluenceCount, confluences, toValid, zeroAtrIn, baseIn, pvD, rsiConfluence,
    candleConfluence, patternConfluence, patternSub, trendConfluence, trendOf,
    truthyBool, truthyStr]

theorem zeroAtr_dir : directionD (toValid zeroAtrIn) = "long" := by
  norm_num [directionD, directionOf, trendD, trendOf, toValid, zeroAtrIn, baseIn, pvD]

theorem zeroAtr_sl : slDistanceOf (toValid zeroAtrIn) = 0 := by
  simp only [slDistanceOf, zeroAtr_dir]
  norm_num [toValid, zeroAtrIn, baseIn, pvD]

theorem zeroAtr_eval : evaluate_signal zeroAtrIn = Except.error "ZeroDivisionError" := by
  unfold evaluate_signal evaluateValidated
  rw [if_neg (by decide), if_neg (by decide), if_neg (by decide),
    if_neg (by simp [zeroAtr_cnt]), if_pos zeroAtr_sl]

theorem noT_cnt : confluenceCount (toValid noTimestampIn) = 0 := by
  norm_num [confluenceCount, confluences, toValid, noTimestampIn, baseIn, pvD, rsiConfluence,
    candleConfluence, patternConfluence, patternSub, trendConfluence, trendOf,
    truthyBool, truthyStr]

theorem noT_eval : evaluate_signal noTimestampIn =
    Except.ok (abstain "not_enough_confluences" (confGateMsg (toValid noTimestampIn)) 0
      (some (toValid noTimestampIn).instrument) (some (toValid noTimestampIn).timeframe)
      (toValid noTimestampIn).timestamp) := by
  unfold evaluate_signal evaluateValidated
  rw [if_neg (by decide), if_neg (by decide), if_neg (by decide),
    if_pos (by simp [noT_cnt])]

theorem noC_cnt : confluenceCount (toValid noConfluenceIn) = 0 := by
  norm_num [confluenceCount, confluences, toValid, noConfluenceIn, baseIn, pvD, rsiConfluence,
    candleConfluence, patternConfluence, patternSub, trendConfluence, trendOf,
    truthyBool, truthyStr]

theorem noC_msg : confGateMsg (toValid noConfluenceIn) =
    "Only 0/4 confluences met. Need at least 3. Met: None" := by
  have hd : confluenceDetails (toValid noConfluenceIn) = [] :=
    (details_nil_iff_count_zero _).mpr noC_cnt
  rw [confGateMsg, noC_cnt, hd]
  decide

theorem noC_eval : evaluate_signal noConfluenceIn =
    Except.ok (abstain "not_enough_confluences" (confGateMsg (toValid noConfluenceIn)) 0
      (some (toValid noConfluenceIn).instrument) (some (toValid noConfluenceIn).timeframe)
      (toValid noConfluenceIn).timestamp) := by
  unfold evaluate_signal evaluateValidated
  rw [if_neg (by decide), if_neg (by decide), if_neg (by decide),
    if_pos (by simp [noC_cnt])]

theorem two_cnt : confluenceCount (toValid twoConfluenceIn) = 2 := by
  norm_num [confluenceCount, confluences, toValid, twoConfluenceIn, baseIn, pvD, rsiConfluence,
    candleConfluence, patternConfluence, patternSub, trendConfluence, trendOf,
    truthyBool, truthyStr]

theorem two_details : confluenceDetails (toValid twoConfluenceIn) =
    ["RSI 4H oversold: 18.50", "Daily trend aligned (RSI Daily: 45.20)"] := by
  norm_num [confluenceDetails, confluences, toValid, twoConfluenceIn, baseIn, pvD,
    rsiConfluence, candleConfluence, patternConfluence, patternSub, trendConfluence,
    trendOf, truthyBool, truthyStr, formatFixed2, rhe, natPad2]
  all_goals decide

theorem tiny_cnt : confluenceCount (toValid tinyAtrIn) = 3 := by
  norm_num [confluenceCount, confluences, toValid, tinyAtrIn, baseIn, pvD, rsiConfluence,
    candleConfluence, patternConfluence, patternSub, trendConfluence, trendOf,
    truthyBool, truthyStr]

theorem tiny_dir : directionD (toValid tinyAtrIn) = "long" := by
  norm_num [directionD, directionOf, trendD, trendOf, toValid, tinyAtrIn, baseIn, pvD]

theorem tiny_sl : slDistanceOf (toValid tinyAtrIn) = 0.000001 := by
  simp only [slDistanceOf, tiny_dir]
  norm_num [toValid, tinyAtrIn, baseIn, pvD]

theorem tiny_candle : candleScoreD (toValid tinyAtrIn) = 8 := by
  norm_num [candleScoreD, candleScoreOf, candleConfluence, trendD, trendOf,
    toValid, tinyAtrIn, baseIn, pvD, truthyStr]

theorem tiny_trsc : trendScoreOf (trendD (toValid tinyAtrIn)) (toValid tinyAtrIn).rsi_daily = 20 := by
  norm_num [trendScoreOf, trendD, trendOf, toValid, tinyAtrIn, baseIn, pvD]

theorem tiny_conf : confidenceD (toValid tinyAtrIn) = 81.8 := by
  simp only [confidenceD, tiny_cnt, tiny_trsc, tiny_candle]
  norm_num [confluencePercentage, roundTo, rhe]

theorem tiny_entry : entryD (toValid tinyAtrIn) = 1.085 := by
  norm_num [entryD, toValid, tinyAtrIn, baseIn, pvD, roundTo, rhe]

theorem tiny_stop : stopD (toValid tinyAtrIn) = 1.085 := by
  simp only [stopD, tiny_dir, tiny_sl]
  norm_num [toValid, tinyAtrIn, baseIn, pvD, roundTo, rhe]

theorem tiny_eval : evaluate_signal tinyAtrIn =
    Except.ok (abstain "invalid_risk_parameters"
      "Invalid SL/TP positioning for long trade" (confidenceD (toValid tinyAtrIn))
      (some (toValid tinyAtrIn).instrument) (some (toValid tinyAtrIn).timeframe)
      (toValid tinyAtrIn).timestamp) := by
  unfold evaluate_signal evaluateValidated
  rw [if_neg (by decide), if_neg (by decide), if_neg (by decide),
    if_neg (by simp [tiny_cnt]), if_neg (by rw [tiny_sl]; norm_num),
    if_neg (by rw [tiny_conf]; norm_num), if_pos tiny_dir,
    if_pos (by rw [tiny_stop, tiny_entry]; left; norm_num)]

/-- C1, counterexample: the snapshot `zeroAtrIn` passes validation with
`atr = 0` and no applicable swing level, three confluences are met, and
`evaluate_signal` raises `ZeroDivisionError` at the risk-reward quotient
instead of returning a result record. -/
theorem c1_counterexample :
    requiredMissing zeroAtrIn = [] ∧ requiredNone zeroAtrIn = [] ∧
    pvD "" zeroAtrIn.timeframe = "4H" ∧ pvGet zeroAtrIn.atr = some 0 ∧
    evaluate_signal zeroAtrIn = Except.error "ZeroDivisionError" :=
  ⟨by decide, by decide, by decide, by decide, zeroAtr_eval⟩

/-- C1 (amended): the only exception `evaluate_signal` can raise is the
`ZeroDivisionError` of the risk-reward quotient, and it occurs exactly when
the computed stop-loss distance is zero; on every input where it returns, a
`no_trade` result carries one of the five reason codes. -/
theorem c1_amended_no_exception (dM : MarketData) :
    (∀ e, evaluate_signal dM = Except.error e →
      e = "ZeroDivisionError" ∧ slDistanceOf (toValid dM) = 0) ∧
    (∀ r, evaluate_signal dM = Except.ok r → r.status = "no_trade" →
      r.reason ∈ (["data_invalid", "preconditions_not_met", "not_enough_confluences",
        "confidence_too_low", "invalid_risk_parameters"] : List String)) := by
  constructor
  · intro e he
    exact evalS_error dM e he
  · intro r hr hnt
    rcases evalS_shape dM r hr with ⟨_, _, _, _, _, h6⟩ | ⟨hfin, _, hcase⟩
    · exact h6
    · subst hfin
      rcases hcase with ⟨hd, _⟩ | ⟨hd, _⟩ <;>
      · rw [show (finalResult (toValid dM)).status = directionD (toValid dM) from rfl, hd] at hnt
        exact absurd hnt (by decide)

/-- C1, witness for the amended theorem at the concrete inputs `zeroAtrIn`
(error side) and `noConfluenceIn` (reason-code side). -/
theorem c1_witness :
    ("ZeroDivisionError" = "ZeroDivisionError" ∧ slDistanceOf (toValid zeroAtrIn) = 0) ∧
    "not_enough_confluences" ∈ (["data_invalid", "preconditions_not_met",
      "not_enough_confluences", "confidence_too_low",
      "invalid_risk_parameters"] : List String) :=
  ⟨(c1_amended_no_exception zeroAtrIn).1 "ZeroDivisionError" zeroAtr_eval,
   by
     exact (c1_amended_no_exception noConfluenceIn).2 _ noC_eval rfl⟩

/-- C2, counterexample: removing `timestamp` alone, with every required field
present and valid, does not produce reason `data_invalid` — `timestamp` is
not in the validated field list of the code. -/
theorem c2_counterexample :
    noTimestampIn.timestamp = none ∧ requiredMissing noTimestampIn = [] ∧
    requiredNone noTimestampIn = [] ∧
    Except.map SignalResult.reason (evaluate_signal noTimestampIn) =
      Except.ok "not_enough_confluences" ∧
    "not_enough_confluences" ≠ "data_invalid" :=
  ⟨rfl, by decide, by decide, by rw [noT_eval]; rfl, by decide⟩

/-- C2 (amended): the required fields are the nine of the code, without
`timestamp`; removing any of them yields `no_trade` with reason
`data_invalid` and a message listing the missing keys comma-joined in
declaration order, and no other key is ever reported missing. -/
theorem c2_amended_required_fields :
    (∀ dM : MarketData, requiredMissing dM ≠ [] →
      evaluate_signal dM = Except.ok (abstain "data_invalid"
        ("Missing required fields: " ++ String.intercalate ", " (requiredMissing dM)) 0
        (pvGet dM.instrument) (pvGet dM.timeframe) dM.timestamp)) ∧
    (∀ dM : MarketData, requiredMissing dM ⊆
      ["instrument", "timeframe", "close", "high", "low", "rsi_4h", "rsi_daily",
       "atr", "ema50_daily"]) := by
  constructor
  · intro dM h
    unfold evaluate_signal
    rw [if_pos h]
  · intro dM
    unfold requiredMissing
    repeat' refine List.append_subset.mpr ⟨?_, ite_singleton_subset _ _ (by decide)⟩
    exact ite_singleton_subset _ _ (by decide)

/-- C2, witness for the amended theorem at the concrete input
`missingCloseIn`, whose only missing required field is `close`. -/
theorem c2_witness :
    (requiredMissing missingCloseIn ≠ [] ∧
      evaluate_signal missingCloseIn = Except.ok (abstain "data_invalid"
        ("Missing required fields: "
          ++ String.intercalate ", " (requiredMissing missingCloseIn)) 0
        (pvGet missingCloseIn.instrument) (pvGet missingCloseIn.timeframe)
        missingCloseIn.timestamp)) ∧
    requiredMissing missingCloseIn ⊆
      ["instrument", "timeframe", "close", "high", "low", "rsi_4h", "rsi_daily",
       "atr", "ema50_daily"] :=
  ⟨⟨by decide, c2_amended_required_fields.1 missingCloseIn (by decide)⟩,
   c2_amended_required_fields.2 missingCloseIn⟩

/-- C3, counterexample: `tinyAtrIn` passes validation with strictly positive
`atr = 0.000001`, reaches the final risk check with three confluences and
confidence `81.8`, yet the rounded stop loss equals the entry and the
evaluator abstains with reason `invalid_risk_parameters`. -/
theorem c3_counterexample :
    (0:ℚ) < (toValid tinyAtrIn).atr ∧ 3 ≤ confluenceCount (toValid tinyAtrIn) ∧
    (70:ℚ) ≤ confidenceD (toValid tinyAtrIn) ∧
    Except.map SignalResult.reason (evaluate_signal tinyAtrIn) =
      Except.ok "invalid_risk_parameters" :=
  ⟨by norm_num [toValid, tinyAtrIn, baseIn, pvD], by norm_num [tiny_cnt],
   by norm_num [tiny_conf], by rw [tiny_eval]; rfl⟩

/-- C3 (amended): for every validated input whose `atr` is at least two units
of the five-decimal rounding grid (`2e-5`) that reaches the final risk check,
the `invalid_risk_parameters` branch is unreachable: after rounding, a long
signal satisfies `stop_loss < entry < take_profit` and a short signal
satisfies `take_profit < entry < stop_loss`. -/
theorem c3_amended_risk_ordering (d : ValidData) (hatr : 2/100000 ≤ d.atr)
    (h3 : 3 ≤ confluenceCount d) (hc : (70:ℚ) ≤ confidenceD d) :
    evaluateValidated d = Except.ok (finalResult d) ∧
    ((directionD d = "long" ∧ stopD d < entryD d ∧ entryD d < takeD d) ∨
     (directionD d = "short" ∧ takeD d < entryD d ∧ entryD d < stopD d)) := by
  have hsl : 2/100000 ≤ slDistanceOf d := le_trans hatr (atr_le_slDistance d)
  have hsl2 : 2/100000 ≤ 2 * slDistanceOf d := by linarith
  have hslne : slDistanceOf d ≠ 0 := by
    intro h0
    rw [h0] at hsl
    norm_num at hsl
  rcases directionD_cases d with hdir | hdir
  · have hstop : stopD d < entryD d := by
      unfold stopD entryD
      rw [if_pos hdir]
      exact roundTo5_sub_lt _ _ hsl
    have htake : entryD d < takeD d := by
      unfold takeD entryD
      rw [if_pos hdir]
      exact roundTo5_add_lt _ _ hsl2
    refine ⟨?_, Or.inl ⟨hdir, hstop, htake⟩⟩
    unfold evaluateValidated
    rw [if_neg (by omega), if_neg hslne, if_neg (not_lt.mpr hc), if_pos hdir,
      if_neg (not_or.mpr ⟨not_le.mpr hstop, not_le.mpr htake⟩)]
  · have hdir2 : ¬ directionD d = "long" := by
      rw [hdir]
      decide
    have hstop : entryD d < stopD d := by
      unfold stopD entryD
      rw [if_neg hdir2]
      exact roundTo5_add_lt _ _ hsl
    have htake : takeD d < entryD d := by
      unfold takeD entryD
      rw [if_neg hdir2]
      exact roundTo5_sub_lt _ _ hsl2
    refine ⟨?_, Or.inr ⟨hdir, htake, hstop⟩⟩
    unfold evaluateValidated
    rw [if_neg (by omega), if_neg hslne, if_neg (not_lt.mpr hc), if_neg hdir2,
      if_neg (not_or.mpr ⟨not_le.mpr hstop, not_le.mpr htake⟩)]

/-- C3, witness for the amended theorem at the validated end-to-end example
snapshot, whose `atr = 0.0025` is well above the `2e-5` threshold. -/
theorem c3_witness :
    ((2:ℚ)/100000 ≤ (toValid baseIn).atr ∧ 3 ≤ confluenceCount (toValid baseIn) ∧
      (70:ℚ) ≤ confidenceD (toValid baseIn)) ∧
    (evaluateValidated (toValid baseIn) = Except.ok (finalResult (toValid baseIn)) ∧
      ((directionD (toValid baseIn) = "long" ∧
          stopD (toValid baseIn) < entryD (toValid baseIn) ∧
          entryD (toValid baseIn) < takeD (toValid baseIn)) ∨
       (directionD (toValid baseIn) = "short" ∧
          takeD (toValid baseIn) < entryD (toValid baseIn) ∧
          entryD (toValid baseIn) < stopD (toValid baseIn)))) :=
  ⟨⟨by norm_num [toValid, baseIn, pvD], by norm_num [base_cnt], by norm_num [base_conf]⟩,
   c3_amended_risk_ordering (toValid baseIn) (by norm_num [toValid, baseIn, pvD])
     (by norm_num [base_cnt]) (by norm_num [base_conf])⟩

/-- C4: for every accepted signal (status `long` or `short`) the returned
`rrr` equals `2.0`, and the returned take-profit distance equals twice the
returned stop-loss distance within the `1e-2` tolerance (the rounded levels
agree to within three units of the fifth decimal). -/
theorem c4_rrr_invariant (dM : MarketData) (r : SignalResult)
    (h : evaluate_signal dM = Except.ok r)
    (hs : r.status = "long" ∨ r.status = "short") :
    r.rrr = some 2 ∧
    abs (abs (r.take_profit.getD 0 - r.entry.getD 0) -
      2 * abs (r.entry.getD 0 - r.stop_loss.getD 0)) ≤ 1/100 := by
  rcases evalS_shape dM r h with ⟨hnt, _⟩ | ⟨hfin, hslne, hcase⟩
  · rcases hs with hs | hs <;> rw [hnt] at hs <;> exact absurd hs (by decide)
  · subst hfin
    constructor
    · show some (rrrD (toValid dM)) = some 2
      have hq : 2 * slDistanceOf (toValid dM) / slDistanceOf (toValid dM) = 2 := by
        field_simp
      rw [rrrD, hq]
      norm_num [roundTo, rhe]
    · have e1 : (finalResult (toValid dM)).entry.getD 0 = entryD (toValid dM) := rfl
      have e2 : (finalResult (toValid dM)).stop_loss.getD 0 = stopD (toValid dM) := rfl
      have e3 : (finalResult (toValid dM)).take_profit.getD 0 = takeD (toValid dM) := rfl
      rw [e1, e2, e3]
      have b1 := roundTo5_err (toValid dM).close
      have b2s := roundTo5_err ((toValid dM).close - slDistanceOf (toValid dM))
      have b3s := roundTo5_err ((toValid dM).close + 2 * slDistanceOf (toValid dM))
      have b2a := roundTo5_err ((toValid dM).close + slDistanceOf (toValid dM))
      have b3a := roundTo5_err ((toValid dM).close - 2 * slDistanceOf (toValid dM))
      rw [abs_le] at b1 b2s b3s b2a b3a
      have hent : entryD (toValid dM) = roundTo 5 (toValid dM).close := rfl
      rcases hcase with ⟨hdir, h1, h2⟩ | ⟨hdir, h1, h2⟩
      · have est : stopD (toValid dM) =
            roundTo 5 ((toValid dM).close - slDistanceOf (toValid dM)) := by
          unfold stopD
          rw [if_pos hdir]
        have etk : takeD (toValid dM) =
            roundTo 5 ((toValid dM).close + 2 * slDistanceOf (toValid dM)) := by
          unfold takeD
          rw [if_pos hdir]
        rw [abs_of_pos (sub_pos.mpr h2), abs_of_pos (sub_pos.mpr h1), abs_le]
        rw [est, etk, hent]
        constructor <;> linarith [b1.1, b1.2, b2s.1, b2s.2, b3s.1, b3s.2]
      · have hdir2 : ¬ directionD (toValid dM) = "long" := by
          rw [hdir]
          decide
        have est : stopD (toValid dM) =
            roundTo 5 ((toValid dM).close + slDistanceOf (toValid dM)) := by
          unfold stopD
          rw [if_neg hdir2]
        have etk : takeD (toValid dM) =
            roundTo 5 ((toValid dM).close - 2 * slDistanceOf (toValid dM)) := by
          unfold takeD
          rw [if_neg hdir2]
        rw [abs_of_neg (sub_neg.mpr h1), abs_of_neg (sub_neg.mpr h2), abs_le]
        rw [est, etk, hent]
        constructor <;> linarith [b1.1, b1.2, b2a.1, b2a.2, b3a.1, b3a.2]

/-- C4, witness at the end-to-end example snapshot, an accepted long
signal. -/
theorem c4_witness :
    (evaluate_signal baseIn = Except.ok (finalResult (toValid baseIn)) ∧
      (finalResult (toValid baseIn)).status = "long") ∧
    (finalResult (toValid baseIn)).rrr = some 2 ∧
    abs (abs ((finalResult (toValid baseIn)).take_profit.getD 0 -
        (finalResult (toValid baseIn)).entry.getD 0) -
      2 * abs ((finalResult (toValid baseIn)).entry.getD 0 -
        (finalResult (toValid baseIn)).stop_loss.getD 0)) ≤ 1/100 :=
  ⟨⟨base_eval, base_dir⟩,
   c4_rrr_invariant baseIn (finalResult (toValid baseIn)) base_eval (Or.inl base_dir)⟩

/-- C5: on the end-to-end example snapshot the evaluator returns status
`long`, reason `all_conditions_met`, entry `1.0850`, stop loss `1.0820`,
take profit `1.0910`, `rrr = 2.0` and confidence `100.0`, from `4/4`
confluences and component scores `25 + 20 + 20 + 20 + 15`. -/
theorem c5_end_to_end :
    evaluate_signal baseIn = Except.ok (finalResult (toValid baseIn)) ∧
    (finalResult (toValid baseIn)).status = "long" ∧
    (finalResult (toValid baseIn)).reason = "all_conditions_met" ∧
    (finalResult (toValid baseIn)).entry = some 1.0850 ∧
    (finalResult (toValid baseIn)).stop_loss = some 1.0820 ∧
    (finalResult (toValid baseIn)).take_profit = some 1.0910 ∧
    (finalResult (toValid baseIn)).rrr = some 2 ∧
    (finalResult (toValid baseIn)).confidence = 100 ∧
    confluenceCount (toValid baseIn) = 4 ∧
    confluencePercentage (confluenceCount (toValid baseIn)) = 25 ∧
    trendScoreOf (trendD (toValid baseIn)) (toValid baseIn).rsi_daily = 20 ∧
    candleScoreD (toValid baseIn) = 20 :=
  ⟨base_eval, base_dir, rfl,
   by
     show some (entryD (toValid baseIn)) = some 1.0850
     rw [base_entry]
     norm_num,
   by
     show some (stopD (toValid baseIn)) = some 1.0820
     rw [base_stop]
     norm_num,
   by
     show some (takeD (toValid baseIn)) = some 1.0910
     rw [base_take]
     norm_num,
   by
     show some (rrrD (toValid baseIn)) = some 2
     rw [base_rrr],
   base_conf, base_cnt,
   by norm_num [base_cnt, confluencePercentage],
   base_trsc, base_candle⟩

/-- C6, counterexample: on a validated snapshot with zero confluences the
abstain message carries the prefix `"Only "`, so it is not equal to the
template of the claim. -/
theorem c6_counterexample :
    Except.map SignalResult.reason (evaluate_signal noConfluenceIn) =
      Except.ok "not_enough_confluences" ∧
    Except.map SignalResult.message (evaluate_signal noConfluenceIn) =
      Except.ok "Only 0/4 confluences met. Need at least 3. Met: None" ∧
    "Only 0/4 confluences met. Need at least 3. Met: None" ≠
      "0/4 confluences met. Need at least 3. Met: None" :=
  ⟨by rw [noC_eval]; rfl,
   by
     rw [noC_eval]
     exact congrArg Except.ok noC_msg,
   by decide⟩

/-- C6 (amended): for every validated input with fewer than three
confluences the evaluator abstains with reason `not_enough_confluences` and
the message `"Only {count}/4 confluences met. Need at least 3. Met:
{details}"`, where the details are the satisfied-confluence strings joined
by `"; "` in evaluation order, or `"None"` exactly when no confluence was
satisfied. -/
theorem c6_amended_confluence_gate_message (dM : MarketData)
    (hm : requiredMissing dM = []) (hn : requiredNone dM = [])
    (ht : pvD "" dM.timeframe = "4H")
    (hcnt : confluenceCount (toValid dM) < 3) :
    evaluate_signal dM = Except.ok (abstain "not_enough_confluences"
      ("Only " ++ toString (confluenceCount (toValid dM))
        ++ "/4 confluences met. Need at least 3. Met: "
        ++ (if confluenceDetails (toValid dM) = [] then "None"
            else String.intercalate "; " (confluenceDetails (toValid dM)))) 0
      (some (toValid dM).instrument) (some (toValid dM).timeframe)
      (toValid dM).timestamp) ∧
    (confluenceDetails (toValid dM) = [] ↔ confluenceCount (toValid dM) = 0) := by
  constructor
  · unfold evaluate_signal evaluateValidated
    rw [if_neg (by simp [hm]), if_neg (by simp [hn]), if_neg (by simp [ht]), if_pos hcnt]
    rfl
  · exact details_nil_iff_count_zero _

/-- C6, witness for the amended theorem at the two-confluence snapshot. -/
theorem c6_witness :
    (requiredMissing twoConfluenceIn = [] ∧ requiredNone twoConfluenceIn = [] ∧
      pvD "" twoConfluenceIn.timeframe = "4H" ∧
      confluenceCount (toValid twoConfluenceIn) < 3) ∧
    evaluate_signal twoConfluenceIn = Except.ok (abstain "not_enough_confluences"
      ("Only " ++ toString (confluenceCount (toValid twoConfluenceIn))
        ++ "/4 confluences met. Need at least 3. Met: "
        ++ (if confluenceDetails (toValid twoConfluenceIn) = [] then "None"
            else String.intercalate "; " (confluenceDetails (toValid twoConfluenceIn)))) 0
      (some (toValid twoConfluenceIn).instrument) (some (toValid twoConfluenceIn).timeframe)
      (toValid twoConfluenceIn).timestamp) ∧
    (confluenceDetails (toValid twoConfluenceIn) = [] ↔
      confluenceCount (toValid twoConfluenceIn) = 0) :=
  ⟨⟨by decide, by decide, by decide, by norm_num [two_cnt]⟩,
   c6_amended_confluence_gate_message twoConfluenceIn (by decide) (by decide) (by decide)
     (by norm_num [two_cnt])⟩

/-- C7: every result record that `evaluate_signal` returns has
`entry`, `stop_loss`, `take_profit` and `rrr` all present or all absent
together, and they are absent exactly when the status is `no_trade`. -/
theorem c7_risk_fields_invariant (dM : MarketData) (r : SignalResult)
    (h : evaluate_signal dM = Except.ok r) :
    (r.entry = none ↔ r.status = "no_trade") ∧
    (r.entry = none ↔ r.stop_loss = none) ∧
    (r.entry = none ↔ r.take_profit = none) ∧
    (r.entry = none ↔ r.rrr = none) := by
  rcases evalS_shape dM r h with ⟨h1, h2, h3, h4, h5, _⟩ | ⟨hfin, _, _⟩
  · rw [h1, h2, h3, h4, h5]
    simp
  · subst hfin
    have hstat : (finalResult (toValid dM)).status ≠ "no_trade" := by
      show directionD (toValid dM) ≠ "no_trade"
      rcases directionD_cases (toValid dM) with hd | hd <;>
      · rw [hd]
        decide
    simp only [finalResult] at hstat ⊢
    simp [hstat]

/-- C7, witness at the end-to-end example snapshot, an accepted signal with
all four risk fields present. -/
theorem c7_witness :
    evaluate_signal baseIn = Except.ok (finalResult (toValid baseIn)) ∧
    (((finalResult (toValid baseIn)).entry = none ↔
        (finalResult (toValid baseIn)).status = "no_trade") ∧
      ((finalResult (toValid baseIn)).entry = none ↔
        (finalResult (toValid baseIn)).stop_loss = none) ∧
      ((finalResult (toValid baseIn)).entry = none ↔
        (finalResult (toValid baseIn)).take_profit = none) ∧
      ((finalResult (toValid baseIn)).entry = none ↔
        (finalResult (toValid baseIn)).rrr = none)) :=
  ⟨base_eval, c7_risk_fields_invariant baseIn (finalResult (toValid baseIn)) base_eval⟩

/-- C8: the trend classification is `bullish` exactly when close is strictly
greater than the daily 50 EMA and `bearish` otherwise; equality classifies
as `bearish`, and the classification is total over the two numeric inputs. -/
theorem c8_trend_classification (close ema50_daily : ℚ) :
    (trendOf close ema50_daily = "bullish" ↔ ema50_daily < close) ∧
    (trendOf close ema50_daily = "bearish" ↔ close ≤ ema50_daily) ∧
    (close = ema50_daily → trendOf close ema50_daily = "bearish") := by
  unfold trendOf
  rcases lt_or_le ema50_daily close with h | h
  · rw [if_pos h]
    exact ⟨⟨fun _ => h, fun _ => rfl⟩,
      ⟨fun hb => absurd hb (by decide), fun hle => absurd h (not_lt.mpr hle)⟩,
      fun he => absurd (he ▸ h) (lt_irrefl _)⟩
  · rw [if_neg (not_lt.mpr h)]
    exact ⟨⟨fun hb => absurd hb (by decide), fun hlt => absurd hlt (not_lt.mpr h)⟩,
      ⟨fun _ => h, fun _ => rfl⟩, fun _ => rfl⟩

/-- C8, witness at the boundary `close = ema50_daily = 5`, where the trend is
`bearish`. -/
theorem c8_witness : trendOf 5 5 = "bearish" :=
  (c8_trend_classification 5 5).2.2 rfl

/-- C9: `evaluate_signal` is deterministic — it is a pure function of its
input record, so identical inputs give identical outputs. -/
theorem c9_deterministic (d1 d2 : MarketData) (h : d1 = d2) :
    evaluate_signal d1 = evaluate_signal d2 := by
  rw [h]

/-- C9, witness at the end-to-end example snapshot. -/
theorem c9_witness :
    baseIn = baseIn ∧ evaluate_signal baseIn = evaluate_signal baseIn :=
  ⟨rfl, c9_deterministic baseIn baseIn rfl⟩

/-- C10: the output of `evaluate_signal` does not depend on the values of the
required fields `high` and `low` — they are only checked for presence and
non-nullness, never read afterwards. -/
theorem c10_high_low_independent (dM : MarketData) (h1 l1 h2 l2 : ℚ) :
    evaluate_signal { dM with high := .val h1, low := .val l1 } =
    evaluate_signal { dM with high := .val h2, low := .val l2 } := by
  simp [evaluate_signal, requiredMissing, requiredNone, isAbsent, isNull, toValid]
